import Mathlib

/-!
Verification of the grab-text OCR quality pipeline.

The development shallowly embeds the three core modules of the repository
(`text_validator.py`, `image_processor.py`, `ocr_engines.py`) as executable
Lean definitions and proves the specified properties about them.

Modelling conventions:
* Python strings are `List Char`; Python floats are `ℚ` (the score
  arithmetic of the source is exact on the rationals involved);
* character classification (`isalpha`, `isdigit`, `\w`, `\s`, ...) is
  modelled on the ASCII range, which covers every concrete input that the
  properties mention;
* fallible Python code (`re` compilation errors, external OCR library
  calls) is modelled with `Except`/`Option`;
* external libraries (pytesseract, easyocr, google-cloud-vision, cv2/PIL)
  are oracles supplied by an environment record; all control flow around
  them comes from the source.
-/

namespace GrabText

/-! ## Python string primitives (`str` methods used by the source) -/

/-- Python `str.isspace` / `\s` membership for the characters the tool can
see (space, tab, newline, carriage return, vertical tab, form feed). -/
def pyIsSpace (c : Char) : Bool :=
  c = ' ' || c = '\t' || c = '\n' || c = '\r' || c = '\x0b' || c = '\x0c'

/-- Python `str.isalpha`, restricted to the ASCII letters. -/
def pyIsAlpha (c : Char) : Bool :=
  ('a' ≤ c && c ≤ 'z') || ('A' ≤ c && c ≤ 'Z')

/-- Python `str.isdigit`, restricted to the ASCII digits. -/
def pyIsDigit (c : Char) : Bool :=
  '0' ≤ c && c ≤ '9'

/-- Regex `\w` (word character): alphanumeric or underscore. -/
def pyIsWord (c : Char) : Bool :=
  pyIsAlpha c || pyIsDigit c || c = '_'

/-- Python `str.strip()`: drop leading and trailing whitespace. -/
def pyStrip (s : List Char) : List Char :=
  ((s.dropWhile pyIsSpace).reverse.dropWhile pyIsSpace).reverse

/-- Accumulator loop splitting a string into the maximal nonempty runs
of `p`-characters (everything else is separator).  Structural recursion
so that the kernel can evaluate it. -/
def splitRunsGo (p : Char → Bool) : List Char → List Char → List (List Char)
  | [], acc => if acc.isEmpty then [] else [acc.reverse]
  | c :: cs, acc =>
    if p c then splitRunsGo p cs (c :: acc)
    else if acc.isEmpty then splitRunsGo p cs []
    else acc.reverse :: splitRunsGo p cs []

/-- `re.findall` for a pattern of the shape `[class]+`: the maximal
nonempty runs of characters of the class, in order. -/
def findRuns (p : Char → Bool) (s : List Char) : List (List Char) :=
  splitRunsGo p s []

/-- Python `str.split()` (no argument): maximal runs of non-whitespace. -/
def pySplit (s : List Char) : List (List Char) :=
  splitRunsGo (fun c => !pyIsSpace c) s []

/-- Python `str.lower()` on our ASCII model. -/
def pyLower (s : List Char) : List Char := s.map Char.toLower

/-- State machine for `re.split(r'[class]+', s)`: `inDelim` records that
the previous character belonged to the current delimiter run. -/
def reSplitGo (p : Char → Bool) : List Char → Bool → List Char → List (List Char)
  | [], inDelim, acc => if inDelim then [[]] else [acc.reverse]
  | c :: cs, inDelim, acc =>
    if p c then
      if inDelim then reSplitGo p cs true []
      else acc.reverse :: reSplitGo p cs true []
    else reSplitGo p cs false (c :: acc)

/-- `re.split(r'[class]+', s)`: fields between maximal delimiter runs
(including empty fields at the borders), as produced by Python. -/
def reSplit (p : Char → Bool) (s : List Char) : List (List Char) :=
  reSplitGo p s false []

/-- Accumulator loop for `charRuns`: `c` is the current character and `n`
how often it has occurred consecutively so far. -/
def charRunsGo : List Char → Char → Nat → List (Char × Nat)
  | [], c, n => [(c, n)]
  | d :: ds, c, n =>
    if d = c then charRunsGo ds c (n + 1)
    else (c, n) :: charRunsGo ds d 1

/-- Maximal runs of one repeated character: each entry is the character
together with the run length. -/
def charRuns : List Char → List (Char × Nat)
  | [] => []
  | c :: cs => charRunsGo cs c 1

/-- Python `' '.join(parts)`. -/
def joinSpace : List (List Char) → List Char
  | [] => []
  | [p] => p
  | p :: ps => p ++ ' ' :: joinSpace ps

/-- Python `round(x, 2)` (banker's rounding at two decimal places). -/
def pyRound2 (q : ℚ) : ℚ :=
  let y := q * 100
  let f : ℤ := ⌊y⌋
  let r : ℚ := y - f
  let n : ℤ :=
    if r < 1/2 then f
    else if 1/2 < r then f + 1
    else if Even f then f else f + 1
  (n : ℚ) / 100

/-! ## `text_validator.py` — `ConfidenceThresholdManager` -/

/-- The fixed threshold table of `ConfidenceThresholdManager.__init__`. -/
def thresholds (band : String) : ℚ :=
  if band = "very_low" then 20
  else if band = "low" then 40
  else if band = "medium" then 60
  else if band = "high" then 80
  else 95

/-- `ConfidenceThresholdManager.get_threshold_level`. -/
def get_threshold_level (confidence : ℚ) : String :=
  if confidence < thresholds "very_low" then "very_low"
  else if confidence < thresholds "low" then "low"
  else if confidence < thresholds "medium" then "medium"
  else if confidence < thresholds "high" then "high"
  else "very_high"

/-- `ConfidenceThresholdManager.should_retry`. -/
def should_retry (confidence : ℚ) : Bool :=
  confidence < thresholds "medium"

/-- `ConfidenceThresholdManager.get_preprocessing_suggestion`. -/
def get_preprocessing_suggestion (confidence : ℚ) : String :=
  if confidence < thresholds "very_low" then "low_quality"
  else if confidence < thresholds "low" then "text_enhancement"
  else if confidence < thresholds "medium" then "document_scan"
  else "none"

/-! ## Position-based regex machinery

`re.findall` scans left to right: at each position it attempts a match;
on success it appends the match and resumes after it, otherwise it moves
one character forward.  The individual patterns of `text_validator.py`
are compiled to dedicated matchers below; each matcher returns the length
of the (backtracking-determined) match starting at a given index. -/

/-- Word-character test at an index (out of range counts as non-word). -/
def isWordAt (s : List Char) (i : Nat) : Bool :=
  match s.get? i with
  | some c => pyIsWord c
  | none => false

/-- Regex `\b`: the word-ness of the characters around position `i`
differs (positions before the start / after the end are non-word). -/
def boundaryAt (s : List Char) (i : Nat) : Bool :=
  (if i = 0 then false else isWordAt s (i - 1)) != isWordAt s i

/-- Length of the maximal run of `p`-characters starting at index `i`. -/
def runLen (p : Char → Bool) (s : List Char) (i : Nat) : Nat :=
  ((s.drop i).takeWhile p).length

/-- `[hi, hi-1, ..., lo]` — the order in which a greedy quantifier offers
its candidate lengths while backtracking. -/
def downFrom (hi lo : Nat) : List Nat :=
  (List.range' lo (hi + 1 - lo)).reverse

/-- The `re.findall` scan loop for a matcher that reports match lengths:
at index `i` a match of length `L` is emitted and the scan resumes at
`i + L`, otherwise at `i + 1`.  The scan advances at least one position
per step, so `s.length + 1` units of fuel make the fuel bound
unreachable; fuel keeps the recursion structural. -/
def scanFindall (s : List Char) (matchAt : Nat → Option Nat) : Nat → Nat → List (List Char)
  | 0, _ => []
  | fuel + 1, i =>
    if s.length ≤ i then []
    else
      match matchAt i with
      | some L =>
        if L = 0 then scanFindall s matchAt fuel (i + 1)
        else ((s.drop i).take L) :: scanFindall s matchAt fuel (i + L)
      | none => scanFindall s matchAt fuel (i + 1)

/-- Matcher for `\b\d+(?:[.,]\d+)?\b` at index `i`.  The leading `\d+`
must be the full digit run (a shorter choice leaves a digit, hence a word
character, after the match, killing the trailing `\b`); the optional
`[.,]\d+` group similarly either takes the whole second digit run or is
dropped, in which case the separator character itself witnesses the
trailing boundary. -/
def numberMatchLen (s : List Char) (i : Nat) : Option Nat :=
  if !boundaryAt s i then none
  else
    let d1 := runLen pyIsDigit s i
    if d1 = 0 then none
    else
      let j := i + d1
      match s.get? j with
      | some c =>
        if c = '.' || c = ',' then
          let d2 := runLen pyIsDigit s (j + 1)
          if d2 = 0 then some d1
          else if !isWordAt s (j + 1 + d2) then some (d1 + 1 + d2)
          else some d1
        else if !pyIsWord c then some d1
        else none
      | none => some d1

/-- Character class `[A-Za-z0-9._%+-]` (email local part). -/
def emailLocalC (c : Char) : Bool :=
  pyIsAlpha c || pyIsDigit c || c = '.' || c = '_' || c = '%' || c = '+' || c = '-'

/-- Character class `[A-Za-z0-9.-]` (email domain part). -/
def emailDomC (c : Char) : Bool :=
  pyIsAlpha c || pyIsDigit c || c = '.' || c = '-'

/-- Character class `[A-Z|a-z]` (email "TLD": letters and, literally, `|`). -/
def emailTldC (c : Char) : Bool :=
  pyIsAlpha c || c = '|'

/-- Matcher for `\b[A-Za-z0-9._%+-]+@[A-Za-z0-9.-]+\.[A-Z|a-z]{2,}\b`.
The local part must be the full class run followed by `@` (`@` is not in
the class, so no shorter choice can ever see it); the domain `+` and the
`{2,}` both backtrack from their greedy maxima. -/
def emailMatchLen (s : List Char) (i : Nat) : Option Nat :=
  if !boundaryAt s i then none
  else
    let l := runLen emailLocalC s i
    if l = 0 then none
    else
      let j := i + l
      if s.get? j = some '@' then
        let a := j + 1
        let m := runLen emailDomC s a
        if m = 0 then none
        else
          (downFrom m 1).findSome? fun k =>
            if s.get? (a + k) = some '.' then
              let p := a + k + 1
              let t0 := runLen emailTldC s p
              (downFrom t0 2).findSome? fun t =>
                if boundaryAt s (p + t) then some (p + t - i) else none
            else none
      else none

/-- Character class `[-\w.]` (URL host). -/
def urlHostC (c : Char) : Bool := c = '-' || pyIsWord c || c = '.'

/-- Character class `[:\d]` (URL port section). -/
def urlPortC (c : Char) : Bool := c = ':' || pyIsDigit c

/-- Character class `[\w/_.]` (URL path). -/
def urlPathC (c : Char) : Bool := pyIsWord c || c = '/' || c = '.'

/-- Character class `[\w&=%.]` (URL query). -/
def urlQueryC (c : Char) : Bool := pyIsWord c || c = '&' || c = '=' || c = '%' || c = '.'

/-- Matcher for the URL pattern
`https?://(?:[-\w.])+(?:[:\d]+)?(?:/(?:[\w/_.])*(?:\?(?:[\w&=%.])*)?(?:#(?:\w*))?)?`
(compiled with `re.IGNORECASE`, hence the lower-casing of the literal
scheme).  Every later component starts with a character excluded from the
preceding greedy class, so the greedy maxima need no backtracking. -/
def urlMatchLen (s : List Char) (i : Nat) : Option Nat :=
  let lit : Nat → Char → Bool := fun k c =>
    match s.get? k with
    | some d => d.toLower = c
    | none => false
  if lit i 'h' && lit (i+1) 't' && lit (i+2) 't' && lit (i+3) 'p' then
    let b := if lit (i+4) 's' then i + 5 else i + 4
    if lit b ':' && lit (b+1) '/' && lit (b+2) '/' then
      let h0 := b + 3
      let hl := runLen urlHostC s h0
      if hl = 0 then none
      else
        let q0 := h0 + hl
        let r0 := q0 + runLen urlPortC s q0
        if s.get? r0 = some '/' then
          let u0 := r0 + 1 + runLen urlPathC s (r0 + 1)
          let u1 := if s.get? u0 = some '?' then u0 + 1 + runLen urlQueryC s (u0 + 1) else u0
          let u2 := if s.get? u1 = some '#' then u1 + 1 + runLen pyIsWord s (u1 + 1) else u1
          some (u2 - i)
        else some (r0 - i)
    else none
  else none

/-! ## `text_validator.py` — `TextValidator` -/

/-- The validator's language tag.  The source keys its pattern table and
stopword set on `'pt'`; every other language code falls back to the
English patterns and English stopwords, so it is modelled by `en`. -/
inductive Language where
  | pt
  | en
deriving Repr, DecidableEq

/-- `TextValidator.min_confidence_threshold`. -/
def min_confidence_threshold : ℚ := 30

/-- `TextValidator.min_text_length`. -/
def min_text_length : Nat := 3

/-- Result shape of `TextValidator._analyze_basic_properties`. -/
structure BasicAnalysis where
  char_count : Nat
  word_count : Nat
  letter_count : Nat
  number_count : Nat
  space_count : Nat
  punctuation_count : Nat
  letter_ratio : ℚ
  number_ratio : ℚ
  space_ratio : ℚ
  punctuation_ratio : ℚ
  avg_word_length : ℚ
  longest_word : List Char
  shortest_word : List Char
deriving Repr, DecidableEq

/-- Python `max(words, key=len)`: the first word of maximal length. -/
def maxByLen : List (List Char) → List Char
  | [] => []
  | w :: ws => ws.foldl (fun acc v => if acc.length < v.length then v else acc) w

/-- Python `min(words, key=len)`: the first word of minimal length. -/
def minByLen : List (List Char) → List Char
  | [] => []
  | w :: ws => ws.foldl (fun acc v => if v.length < acc.length then v else acc) w

/-- `TextValidator._analyze_basic_properties`. -/
def analyze_basic_properties (text : List Char) : BasicAnalysis :=
  let words := pySplit text
  let char_count := text.length
  let word_count := words.length
  let letters := text.countP pyIsAlpha
  let numbers := text.countP pyIsDigit
  let spaces := text.countP pyIsSpace
  let punctuation := text.countP fun c => !(pyIsAlpha c || pyIsDigit c) && !pyIsSpace c
  { char_count := char_count
    word_count := word_count
    letter_count := letters
    number_count := numbers
    space_count := spaces
    punctuation_count := punctuation
    letter_ratio := if 0 < char_count then (letters : ℚ) / char_count else 0
    number_ratio := if 0 < char_count then (numbers : ℚ) / char_count else 0
    space_ratio := if 0 < char_count then (spaces : ℚ) / char_count else 0
    punctuation_ratio := if 0 < char_count then (punctuation : ℚ) / char_count else 0
    avg_word_length :=
      if 0 < word_count then ((words.map List.length).sum : ℚ) / word_count else 0
    longest_word := maxByLen words
    shortest_word := minByLen words }

/-- One entry of the `_analyze_patterns` result: a match count and the
first five matches (`matches[:5]`). -/
structure PatternFamily where
  count : Nat
  samples : List (List Char)
deriving Repr, DecidableEq

/-- Result shape of `TextValidator._analyze_patterns`.  The source also
records `phone`, `currency` and `date` families; they are written to the
result dictionary but never read by scoring, validity or
recommendations, so they are not tracked here. -/
structure PatternAnalysis where
  words : PatternFamily
  numbers : PatternFamily
  email : PatternFamily
  url : PatternFamily
  common_words_count : Nat
  common_words_ratio : ℚ
deriving Repr, DecidableEq

/-- The Portuguese stopword set of `TextValidator._get_common_words`. -/
def commonWordsPt : List (List Char) :=
  ["o", "a", "os", "as", "de", "do", "da", "dos", "das", "em", "no", "na",
   "nos", "nas", "por", "para", "com", "sem", "como", "mais", "menos",
   "muito", "pouco", "que", "quem", "qual", "quando", "onde", "porque",
   "mas", "e", "ou", "se", "não", "sim", "um", "uma", "uns", "umas",
   "este", "esta", "isto", "esse", "essa", "isso", "aquele", "aquela",
   "aquilo"].map String.toList

/-- The English stopword set of `TextValidator._get_common_words`. -/
def commonWordsEn : List (List Char) :=
  ["the", "a", "an", "and", "or", "but", "in", "on", "at", "to", "for",
   "of", "with", "by", "from", "up", "about", "into", "through", "during",
   "before", "after", "above", "below", "between", "under", "again",
   "further", "then", "once", "here", "there", "when", "where", "why",
   "how", "all", "any", "both", "each", "few", "more", "most", "other",
   "some", "such", "no", "nor", "not", "only", "own", "same", "so",
   "than", "too", "very", "can", "will", "just", "don", "should",
   "now"].map String.toList

/-- `re.findall` for the English `words` pattern `[a-zA-Z]+`. -/
def findallWordsEn (text : List Char) : List (List Char) :=
  findRuns pyIsAlpha text

/-- `re.findall` for the `numbers` pattern. -/
def findallNumbers (text : List Char) : List (List Char) :=
  scanFindall text (numberMatchLen text) (text.length + 1) 0

/-- `re.findall` for the `email` pattern. -/
def findallEmail (text : List Char) : List (List Char) :=
  scanFindall text (emailMatchLen text) (text.length + 1) 0

/-- `re.findall` for the `url` pattern. -/
def findallUrl (text : List Char) : List (List Char) :=
  scanFindall text (urlMatchLen text) (text.length + 1) 0

/-- `TextValidator._analyze_patterns` for the English pattern table
(the table used for every language other than `'pt'`). -/
def analyzePatternsEn (text : List Char) : PatternAnalysis :=
  let wordsAll := findallWordsEn text
  let numbersAll := findallNumbers text
  let emailAll := findallEmail text
  let urlAll := findallUrl text
  let lowWords := findallWordsEn (pyLower text)
  let stop := lowWords.countP fun w => commonWordsEn.contains w
  { words := ⟨wordsAll.length, wordsAll.take 5⟩
    numbers := ⟨numbersAll.length, numbersAll.take 5⟩
    email := ⟨emailAll.length, emailAll.take 5⟩
    url := ⟨urlAll.length, urlAll.take 5⟩
    common_words_count := stop
    common_words_ratio := if lowWords ≠ [] then (stop : ℚ) / lowWords.length else 0 }

/-- The `re.error` raised when compiling the Portuguese `words` pattern
`[a-zA-Zá-úÁ-Úç-Ç]+`: the final range runs from `ç` (U+00E7) down to `Ç`
(U+00C7), which Python's `re` rejects as a bad character range. -/
def ptWordsRangeError : String := "bad character range ç-Ç at position 13"

/-- `TextValidator._analyze_patterns`.  For the Portuguese table the very
first `re.findall` call (`words`) raises `re.error` while compiling its
pattern, so the whole analysis — and with it `validate_text` — raises. -/
def analyze_patterns : Language → List Char → Except String PatternAnalysis
  | .pt, _ => .error ptWordsRangeError
  | .en, text => .ok (analyzePatternsEn text)

/-- The complement of the allowed-character class of the suspicious-chars
regex `[^\w\s\.,!?;:()\-"\'+@#$%&*=<>/\\|`~\[\]{}]`. -/
def allowedQualityChar (c : Char) : Bool :=
  pyIsWord c || pyIsSpace c ||
  c = '.' || c = ',' || c = '!' || c = '?' || c = ';' || c = ':' ||
  c = '(' || c = ')' || c = '-' || c = '"' || c = '\'' || c = '+' ||
  c = '@' || c = '#' || c = '$' || c = '%' || c = '&' || c = '*' ||
  c = '=' || c = '<' || c = '>' || c = '/' || c = '\\' || c = '|' ||
  c = '`' || c = '~' || c = '[' || c = ']' || c = '\x7b' || c = '\x7d'

/-- Result shape of `TextValidator._analyze_quality`.  (Python materialises
`suspicious_chars.chars` as `list(set(...))`, whose order is unspecified;
the model fixes first-occurrence order.) -/
structure QualityAnalysis where
  suspicious_count : Nat
  suspicious_chars : List Char
  repeated_count : Nat
  repeated_patterns : List Char
  mixed_case_count : Nat
  mixed_case_words : List (List Char)
  irregular_spacing : Bool
  readability_score : ℚ
deriving Repr, DecidableEq

/-- `TextValidator._calculate_readability`. -/
def calculate_readability (text : List Char) : ℚ :=
  let words := pySplit text
  let sentences := reSplit (fun c => c = '.' || c = '!' || c = '?') text
  if words = [] ∨ sentences = [] then 0
  else
    let avg_words_per_sentence : ℚ := (words.length : ℚ) / sentences.length
    let avg_word_length : ℚ := ((words.map List.length).sum : ℚ) / words.length
    max 0 (min 100 (100 - avg_words_per_sentence * (3/2) - avg_word_length * 10))

/-- `TextValidator._analyze_quality`. -/
def analyze_quality (text : List Char) : QualityAnalysis :=
  let suspicious := text.filter fun c => !allowedQualityChar c
  let repeated := (charRuns text).filter fun r => 4 ≤ r.2 && r.1 ≠ '\n'
  let mixed := (pySplit text).filter fun w =>
    3 < w.length && w.any (fun c => 'a' ≤ c && c ≤ 'z') &&
      w.any (fun c => 'A' ≤ c && c ≤ 'Z')
  let multiple_spaces := (charRuns text).filter fun r => r.1 = ' ' && 2 ≤ r.2
  { suspicious_count := suspicious.length
    suspicious_chars := suspicious.dedup
    repeated_count := repeated.length
    repeated_patterns := (repeated.map Prod.fst).take 5
    mixed_case_count := mixed.length
    mixed_case_words := mixed.take 5
    irregular_spacing := 0 < multiple_spaces.length
    readability_score := calculate_readability text }

/-- `TextValidator._calculate_final_score`. -/
def calculate_final_score (ocr_confidence : ℚ) (basic : BasicAnalysis)
    (pat : PatternAnalysis) (qual : QualityAnalysis) : ℚ :=
  let ocr_score := min (ocr_confidence / 100) 1 * 40
  let basic_score : ℚ :=
    (if min_text_length ≤ basic.char_count then 10 else 0) +
    (if 1 ≤ basic.word_count then 10 else 0) +
    (if 3/10 ≤ basic.letter_ratio ∧ basic.letter_ratio ≤ 9/10 then 10 else 0)
  let pattern_score : ℚ :=
    (if 1/10 < pat.common_words_ratio then 5 else 0) +
    (if 0 < pat.words.count then 5 else 0) +
    (if 0 < pat.numbers.count then 5 else 0) +
    (if 0 < pat.email.count ∨ 0 < pat.url.count then 5 else 0)
  let quality_score : ℚ :=
    (if qual.suspicious_count = 0 then 3 else 0) +
    (if qual.repeated_count = 0 then 3 else 0) +
    (if qual.irregular_spacing = false then 2 else 0) +
    (if 50 < qual.readability_score then 2 else 0)
  min (ocr_score + basic_score + pattern_score + quality_score) 100

/-- `TextValidator._is_text_valid`. -/
def is_text_valid (final_score : ℚ) (basic : BasicAnalysis) : Bool :=
  if final_score < min_confidence_threshold then false
  else if basic.char_count < min_text_length then false
  else if basic.word_count = 0 then false
  else true

/-- `TextValidator._get_recommendations`. -/
def get_recommendations (score : ℚ) (basic : BasicAnalysis)
    (qual : QualityAnalysis) : List String :=
  (if score < 30 then ["Texto muito baixa qualidade. Consiste em capturar novamente."]
   else if score < 50 then ["Qualidade baixa. Tente pré-processamento da imagem."]
   else if score < 70 then ["Qualidade razoável. Pode haver alguns erros."]
   else []) ++
  (if 0 < qual.suspicious_count then ["Verificar caracteres incomuns detectados."] else []) ++
  (if 0 < qual.repeated_count then ["Possíveis erros de OCR em caracteres repetidos."] else []) ++
  (if 0 < qual.mixed_case_count then ["Verificar palavras com maiúsculas/minúsculas misturadas."] else []) ++
  (if qual.irregular_spacing then ["Verificar espaçamento irregular no texto."] else []) ++
  (if basic.letter_ratio < 3/10 then ["Texto com poucas letras. Pode ser principalmente números ou símbolos."] else [])

/-- Result shape of `TextValidator.validate_text`.  The three analysis
dictionaries are `Option`s: `none` models the empty `{}` of the
empty-input result. -/
structure ValidationResult where
  text : List Char
  is_valid : Bool
  final_score : ℚ
  ocr_confidence : ℚ
  basic_analysis : Option BasicAnalysis
  pattern_analysis : Option PatternAnalysis
  quality_analysis : Option QualityAnalysis
  recommendations : List String
deriving Repr, DecidableEq

/-- `TextValidator._empty_result`. -/
def empty_result : ValidationResult :=
  { text := []
    is_valid := false
    final_score := 0
    ocr_confidence := 0
    basic_analysis := none
    pattern_analysis := none
    quality_analysis := none
    recommendations := ["Nenhum texto detectado"] }

/-- `TextValidator.validate_text`.  A raised `re.error` (Portuguese
pattern table, see `analyze_patterns`) is the `.error` branch. -/
def validate_text (lang : Language) (text : List Char) (ocr_confidence : ℚ) :
    Except String ValidationResult :=
  if pyStrip text = [] then .ok empty_result
  else
    let t := pyStrip text
    let basic := analyze_basic_properties t
    match analyze_patterns lang t with
    | .error e => .error e
    | .ok pat =>
      let qual := analyze_quality t
      let final := calculate_final_score ocr_confidence basic pat qual
      .ok { text := t
            is_valid := is_text_valid final basic
            final_score := final
            ocr_confidence := ocr_confidence
            basic_analysis := some basic
            pattern_analysis := some pat
            quality_analysis := some qual
            recommendations := get_recommendations final basic qual }

/-! ## `image_processor.py` -/

/-- A preprocessing step as stored in `ImageProcessor.preprocessing_steps`
(either a bare tag string or a tagged tuple in the source). -/
inductive Step where
  | grayscale
  | blur (kernel_size : Nat)
  | threshold (method : String) (block_size : Nat) (c : Nat)
  | denoise
  | contrast (factor : ℚ)
  | sharpen
  | resize (scale_factor : ℚ)
deriving Repr, DecidableEq

/-- `ImageProcessor.add_grayscale` (builder-style append). -/
def add_grayscale (p : List Step) : List Step := p ++ [.grayscale]

/-- `ImageProcessor.add_blur` (default `kernel_size=3`). -/
def add_blur (p : List Step) (kernel_size : Nat) : List Step := p ++ [.blur kernel_size]

/-- `ImageProcessor.add_threshold` (defaults `method='adaptive'`,
`block_size=11`, `c=2` at the Python call sites). -/
def add_threshold (p : List Step) (method : String) (block_size : Nat) (c : Nat) :
    List Step := p ++ [.threshold method block_size c]

/-- `ImageProcessor.add_denoise`. -/
def add_denoise (p : List Step) : List Step := p ++ [.denoise]

/-- `ImageProcessor.add_contrast_enhancement` (default `factor=1.5`). -/
def add_contrast_enhancement (p : List Step) (factor : ℚ) : List Step :=
  p ++ [.contrast factor]

/-- `ImageProcessor.add_sharpen`. -/
def add_sharpen (p : List Step) : List Step := p ++ [.sharpen]

/-- `ImageProcessor.add_resize` (default `scale_factor=2.0`). -/
def add_resize (p : List Step) (scale_factor : ℚ) : List Step :=
  p ++ [.resize scale_factor]

/-- `get_preset_text_enhancement`. -/
def get_preset_text_enhancement : List Step :=
  add_threshold
    (add_sharpen (add_contrast_enhancement (add_blur (add_grayscale []) 3) (3/2)))
    "adaptive" 11 2

/-- `get_preset_low_quality` (here `add_threshold('otsu')` keeps the
Python defaults `block_size=11`, `c=2`). -/
def get_preset_low_quality : List Step :=
  add_threshold
    (add_resize (add_contrast_enhancement (add_denoise (add_grayscale [])) 2) 2)
    "otsu" 11 2

/-- `get_preset_handwriting`. -/
def get_preset_handwriting : List Step :=
  add_threshold
    (add_sharpen (add_contrast_enhancement (add_blur (add_grayscale []) 5) (9/5)))
    "adaptive" 15 3

/-- `get_preset_document_scan` (again with the default `11`, `2`). -/
def get_preset_document_scan : List Step :=
  add_threshold (add_contrast_enhancement (add_denoise (add_grayscale [])) (13/10))
    "otsu" 11 2

section Preprocess

variable {Img Arr : Type}

/-- The inner `for step in self.preprocessing_steps` loop of
`ImageProcessor.preprocess`: each step is applied through the cv2/PIL
oracle `stepApply` (whose `none` models a raised exception); a failing
step is skipped and the loop continues with the pre-step image. -/
def applySteps (stepApply : Step → Arr → Option Arr) (steps : List Step) (a : Arr) : Arr :=
  steps.foldl
    (fun cur s =>
      match stepApply s cur with
      | some nxt => nxt
      | none => cur)
    a

/-- `ImageProcessor.preprocess`.  `convIn` models the PIL→numpy
conversion at the top of the outer `try`, `convOut` the final
`Image.fromarray` conversion; a `none` from either models an exception
reaching the outer handler, which returns the original input image. -/
def preprocess (convIn : Img → Option Arr) (stepApply : Step → Arr → Option Arr)
    (convOut : Arr → Option Img) (steps : List Step) (image : Img) : Img :=
  match convIn image with
  | none => image
  | some a0 =>
    match convOut (applySteps stepApply steps a0) with
    | none => image
    | some out => out

end Preprocess

/-! ## `ocr_engines.py` -/

/-- The common result dictionary of the engines' `extract_text` methods.
(`error` is `none` when the Python dictionary has no `'error'` key; the
engine-specific extras `detections` / `blocks_detected` are not
tracked.) -/
structure RecognitionResult where
  text : List Char
  word_count : Nat
  char_count : Nat
  avg_confidence : ℚ
  language_used : String
  has_text : Bool
  engine : String
  success : Bool
  error : Option String
deriving Repr, DecidableEq

/-- What a successful pair of pytesseract calls yields: the `conf` column
of `image_to_data`, its `text` column, and the `image_to_string` text. -/
structure TessData where
  conf : List Int
  data_text : List (List Char)
  full_text : List Char
deriving Repr, DecidableEq

/-- The external OCR backends behind the engines, as oracles over an
abstract image type: availability flags cached at construction, and the
three library calls, an `Except.error` modelling a raised exception. -/
structure OCREnv (Img : Type) where
  tess_available : Bool
  easy_available : Bool
  google_available : Bool
  tess_call : Img → String → Except String TessData
  easy_readtext : Img → String → Except String (List (List Char × ℚ))
  google_text_detection : Img → String → Except String (List (List Char))

/-- The `lang_map` dictionary shared by `EasyOCREngine.extract_text` and
`GoogleCloudOCREngine.extract_text` (`.get(lang, 'en')`). -/
def lang_map (lang : String) : String :=
  if lang = "eng" then "en"
  else if lang = "por" then "pt"
  else if lang = "spa" then "es"
  else if lang = "fra" then "fr"
  else if lang = "deu" then "de"
  else "en"

/-- The error dictionary shared (field for field) by the engines'
`except` branches and `_error_result` helpers. -/
def error_result (engine lang : String) (error : String) : RecognitionResult :=
  { text := []
    word_count := 0
    char_count := 0
    avg_confidence := 0
    language_used := lang
    has_text := false
    engine := engine
    success := false
    error := some error }

/-- `TesseractEngine.extract_text`.  Note that it never consults the
`available` flag: it simply calls pytesseract and catches. -/
def tesseract_extract_text {Img : Type} (env : OCREnv Img) (image : Img)
    (lang : String) : RecognitionResult :=
  match env.tess_call image lang with
  | .error e => error_result "tesseract" lang e
  | .ok data =>
    let text := pyStrip data.full_text
    let confidences := data.conf.filter (0 < ·)
    let avg_confidence : ℚ :=
      if confidences ≠ [] then ((confidences.sum : ℤ) : ℚ) / confidences.length else 0
    { text := text
      word_count := (data.data_text.filter fun w => w ≠ [] && pyStrip w ≠ []).length
      char_count := if text ≠ [] then text.length else 0
      avg_confidence := pyRound2 avg_confidence
      language_used := lang
      has_text := decide (text ≠ [])
      engine := "tesseract"
      success := true
      error := none }

/-- `EasyOCREngine.extract_text`. -/
def easyocr_extract_text {Img : Type} (env : OCREnv Img) (image : Img)
    (lang : String) : RecognitionResult :=
  if !env.easy_available then error_result "easyocr" lang "EasyOCR not available"
  else
    match env.easy_readtext image (lang_map lang) with
    | .error e => error_result "easyocr" lang e
    | .ok results =>
      let kept := results.filter fun r => pyStrip r.1 ≠ []
      let text_parts := kept.map Prod.fst
      let total_confidence : ℚ := (kept.map Prod.snd).sum
      let text := joinSpace text_parts
      let avg_confidence : ℚ :=
        if results ≠ [] then total_confidence / results.length else 0
      { text := text
        word_count := (kept.map fun r => (pySplit r.1).length).sum
        char_count := text.length
        avg_confidence := pyRound2 (avg_confidence * 100)
        language_used := lang
        has_text := decide (text ≠ [])
        engine := "easyocr"
        success := true
        error := none }

/-- `GoogleCloudOCREngine._empty_result` (note: `success=True`). -/
def google_empty_result (lang : String) : RecognitionResult :=
  { text := []
    word_count := 0
    char_count := 0
    avg_confidence := 0
    language_used := lang
    has_text := false
    engine := "google_cloud"
    success := true
    error := none }

/-- `GoogleCloudOCREngine.extract_text`.  On a successful detection the
returned confidence is the fixed per-block estimate `0.95`, taken
verbatim — unlike EasyOCR's `* 100`, it is not converted to the 0–100
percent scale. -/
def google_extract_text {Img : Type} (env : OCREnv Img) (image : Img)
    (lang : String) : RecognitionResult :=
  if !env.google_available then
    error_result "google_cloud" lang "Google Cloud Vision not available"
  else
    match env.google_text_detection image (lang_map lang) with
    | .error e => error_result "google_cloud" lang e
    | .ok [] => google_empty_result lang
    | .ok (full_text :: _rest) =>
      { text := pyStrip full_text
        word_count := (pySplit full_text).length
        char_count := full_text.length
        avg_confidence := 19/20
        language_used := lang
        has_text := decide (pyStrip full_text ≠ [])
        engine := "google_cloud"
        success := true
        error := none }

/-- The keys of `OCREngineManager.engines`. -/
inductive EngineId where
  | tesseract
  | easyocr
  | google_cloud
deriving Repr, DecidableEq

/-- `BaseOCREngine.is_available`, per engine, from the cached flags. -/
def engine_available {Img : Type} (env : OCREnv Img) : EngineId → Bool
  | .tesseract => env.tess_available
  | .easyocr => env.easy_available
  | .google_cloud => env.google_available

/-- `self.engines.get(engine_name)`. -/
def lookup_engine (name : String) : Option EngineId :=
  if name = "tesseract" then some .tesseract
  else if name = "easyocr" then some .easyocr
  else if name = "google_cloud" then some .google_cloud
  else none

/-- `OCREngineManager.get_engine`: the requested engine when registered
and available, otherwise the Tesseract engine (which is also returned,
available or not, when nothing at all is available). -/
def get_engine {Img : Type} (env : OCREnv Img) (engine_name : Option String) : EngineId :=
  match lookup_engine (engine_name.getD "tesseract") with
  | some e => if engine_available env e then e else .tesseract
  | none => .tesseract

/-- Dispatch of `engine.extract_text(image, lang)` by engine identity. -/
def engine_extract_text {Img : Type} (e : EngineId) (env : OCREnv Img)
    (image : Img) (lang : String) : RecognitionResult :=
  match e with
  | .tesseract => tesseract_extract_text env image lang
  | .easyocr => easyocr_extract_text env image lang
  | .google_cloud => google_extract_text env image lang

/-- `OCREngineManager.extract_text`. -/
def manager_extract_text {Img : Type} (env : OCREnv Img) (image : Img)
    (lang : String) (engine_name : Option String) : RecognitionResult :=
  engine_extract_text (get_engine env engine_name) env image lang

/-! ## Specification-side definitions and concrete fixtures -/

/-- The final-score formula exactly as the specification words it (§4.3):
"weighted sum capped at 100: `min(ocrConfidence,100)/100 × 40`; 10 if
char count ≥ 3, 10 if word count ≥ 1, 10 if letter-ratio is within
[0.3, 0.9]; 5 each for stopword ratio > 0.1, ≥ 1 word token, ≥ 1 numeric
token, ≥ 1 email-or-URL match; 3 if no suspicious characters, 3 if no
repeated-character runs, 2 if no irregular spacing, 2 if
readability > 50".  To be compared against `calculate_final_score`. -/
def specFinalScore (ocrConfidence : ℚ) (basic : BasicAnalysis)
    (pat : PatternAnalysis) (qual : QualityAnalysis) : ℚ :=
  min
    (min ocrConfidence 100 / 100 * 40
      + (if 3 ≤ basic.char_count then 10 else 0)
      + (if 1 ≤ basic.word_count then 10 else 0)
      + (if 3/10 ≤ basic.letter_ratio ∧ basic.letter_ratio ≤ 9/10 then 10 else 0)
      + (if 1/10 < pat.common_words_ratio then 5 else 0)
      + (if 1 ≤ pat.words.count then 5 else 0)
      + (if 1 ≤ pat.numbers.count then 5 else 0)
      + (if 1 ≤ pat.email.count + pat.url.count then 5 else 0)
      + (if qual.suspicious_count = 0 then 3 else 0)
      + (if qual.repeated_count = 0 then 3 else 0)
      + (if qual.irregular_spacing = false then 2 else 0)
      + (if 50 < qual.readability_score then 2 else 0))
    100

/-- The §8 garbage-input test string. -/
def garbageText : List Char := "aaaaaaaa!!!!####".toList

/-- An environment with no OCR backend available: the availability probes
all failed, and — as in that situation — every library call raises (for
pytesseract, `TesseractNotFoundError` with its standard message). -/
def envNoEngines : OCREnv Unit :=
  { tess_available := false
    easy_available := false
    google_available := false
    tess_call := fun _ _ =>
      .error "tesseract is not installed or it's not in your PATH"
    easy_readtext := fun _ _ => .error "EasyOCR not available"
    google_text_detection := fun _ _ => .error "Google Cloud Vision not available" }

/-- An environment where only the baseline Tesseract engine works. -/
def envTessOnly : OCREnv Unit :=
  { tess_available := true
    easy_available := false
    google_available := false
    tess_call := fun _ _ => .ok ⟨[90, 80], [['h', 'i']], ['h', 'i']⟩
    easy_readtext := fun _ _ => .error "EasyOCR not available"
    google_text_detection := fun _ _ => .error "Google Cloud Vision not available" }

/-- An environment whose Google Cloud backend is available and detects
the text "Hello world". -/
def envGoogleOk : OCREnv Unit :=
  { tess_available := false
    easy_available := false
    google_available := true
    tess_call := fun _ _ =>
      .error "tesseract is not installed or it's not in your PATH"
    easy_readtext := fun _ _ => .error "EasyOCR not available"
    google_text_detection := fun _ _ => .ok ["Hello world".toList] }

/-- Fixture: an input conversion that accepts the image `true` only. -/
def wConvIn : Bool → Option Nat := fun b => if b then some 0 else none

/-- Fixture: a step oracle on which every step raises. -/
def wStepApply : Step → Nat → Option Nat := fun _ _ => none

/-- Fixture: an output conversion that always raises. -/
def wConvOut : Nat → Option Bool := fun _ => none

/-! ## Helper lemmas -/

theorem dropWhile_dropWhile {α : Type} (p : α → Bool) (l : List α) :
    (l.dropWhile p).dropWhile p = l.dropWhile p := by
  induction l with
  | nil => simp
  | cons a as ih =>
    by_cases h : p a
    · simpa [List.dropWhile_cons, h] using ih
    · simp [List.dropWhile_cons, h]

theorem exists_append_dropWhile {α : Type} (p : α → Bool) (l : List α) :
    ∃ t, l = t ++ l.dropWhile p :=
  ⟨l.takeWhile p, (List.takeWhile_append_dropWhile (p := p) (l := l)).symm⟩

theorem dropWhile_head_not {α : Type} (p : α → Bool) (l : List α) (a : α) (as : List α)
    (h : l.dropWhile p = a :: as) : p a = false := by
  induction l with
  | nil => simp at h
  | cons b bs ih =>
    by_cases hb : p b
    · rw [List.dropWhile_cons_of_pos hb] at h; exact ih h
    · rw [List.dropWhile_cons_of_neg hb] at h
      cases h
      simpa using hb

theorem pyStrip_eq_nil_iff (s : List Char) : pyStrip s = [] ↔ ∀ c ∈ s, pyIsSpace c := by
  unfold pyStrip
  constructor
  · intro h c hc
    rw [List.reverse_eq_nil_iff, List.dropWhile_eq_nil_iff] at h
    have hsplit := List.takeWhile_append_dropWhile (p := pyIsSpace) (l := s)
    rw [← hsplit] at hc
    rcases List.mem_append.mp hc with h1 | h2
    · exact List.mem_takeWhile_imp h1
    · exact h c (by simpa using h2)
  · intro h
    have hd : s.dropWhile pyIsSpace = [] := List.dropWhile_eq_nil_iff.mpr h
    simp [hd]

theorem pyStrip_idem (s : List Char) : pyStrip (pyStrip s) = pyStrip s := by
  have key : ∀ x : List Char, x.dropWhile pyIsSpace = x →
      pyStrip x = (x.reverse.dropWhile pyIsSpace).reverse := by
    intro x hx
    unfold pyStrip
    rw [hx]
  have hstrip : pyStrip s =
      ((s.dropWhile pyIsSpace).reverse.dropWhile pyIsSpace).reverse := rfl
  obtain ⟨t, ht⟩ := exists_append_dropWhile pyIsSpace (s.dropWhile pyIsSpace).reverse
  -- `pyStrip s` is a prefix of `s.dropWhile pyIsSpace`, whose head is non-space.
  have hyx : s.dropWhile pyIsSpace =
      ((s.dropWhile pyIsSpace).reverse.dropWhile pyIsSpace).reverse ++ t.reverse := by
    calc s.dropWhile pyIsSpace
        = (s.dropWhile pyIsSpace).reverse.reverse := (List.reverse_reverse _).symm
    _ = (t ++ (s.dropWhile pyIsSpace).reverse.dropWhile pyIsSpace).reverse := by rw [← ht]
    _ = ((s.dropWhile pyIsSpace).reverse.dropWhile pyIsSpace).reverse ++ t.reverse :=
        List.reverse_append t _
  have h1 : (((s.dropWhile pyIsSpace).reverse.dropWhile pyIsSpace).reverse).dropWhile
      pyIsSpace = ((s.dropWhile pyIsSpace).reverse.dropWhile pyIsSpace).reverse := by
    cases hcy : ((s.dropWhile pyIsSpace).reverse.dropWhile pyIsSpace).reverse with
    | nil => simp
    | cons b bs =>
      have hxb : s.dropWhile pyIsSpace = b :: (bs ++ t.reverse) := by
        rw [hyx, hcy]
        simp
      have hb : pyIsSpace b = false :=
        dropWhile_head_not pyIsSpace s b (bs ++ t.reverse) hxb
      exact List.dropWhile_cons_of_neg (by simp [hb])
  rw [hstrip, key _ h1, List.reverse_reverse,
    dropWhile_dropWhile pyIsSpace (s.dropWhile pyIsSpace).reverse]

theorem pyStrip_joinSpace_ne_nil (parts : List (List Char)) (hne : parts ≠ [])
    (hall : ∀ p ∈ parts, pyStrip p ≠ []) :
    joinSpace parts ≠ [] ∧ pyStrip (joinSpace parts) ≠ [] := by
  obtain ⟨p, ps, rfl⟩ := List.exists_cons_of_ne_nil hne
  have hp := hall p (by simp)
  have hnc : ¬∀ c ∈ p, pyIsSpace c := fun hcs => hp ((pyStrip_eq_nil_iff p).mpr hcs)
  push_neg at hnc
  obtain ⟨c, hcp, hcs⟩ := hnc
  have hcj : c ∈ joinSpace (p :: ps) := by
    cases ps with
    | nil => simpa [joinSpace] using hcp
    | cons q qs =>
      simp only [joinSpace, List.mem_append]
      exact Or.inl hcp
  constructor
  · intro h
    rw [h] at hcj
    simp at hcj
  · intro h
    exact hcs ((pyStrip_eq_nil_iff _).mp h c hcj)

theorem calculate_final_score_eq_spec (c : ℚ) (b : BasicAnalysis) (p : PatternAnalysis)
    (q : QualityAnalysis) : calculate_final_score c b p q = specFinalScore c b p q := by
  have h40 : min (c / 100) 1 * 40 = min c 100 / 100 * 40 := by
    rcases le_total c 100 with h | h
    · rw [min_eq_left h, min_eq_left ((div_le_one (by norm_num)).mpr h)]
    · rw [min_eq_right h, min_eq_right ((one_le_div (by norm_num)).mpr h)]
      norm_num
  have e1 : (if 0 < p.words.count then (5 : ℚ) else 0) =
      (if 1 ≤ p.words.count then 5 else 0) := rfl
  have e2 : (if 0 < p.numbers.count then (5 : ℚ) else 0) =
      (if 1 ≤ p.numbers.count then 5 else 0) := rfl
  have e3 : (if 0 < p.email.count ∨ 0 < p.url.count then (5 : ℚ) else 0) =
      (if 1 ≤ p.email.count + p.url.count then 5 else 0) := by
    by_cases h : 0 < p.email.count ∨ 0 < p.url.count
    · rw [if_pos h, if_pos (by omega)]
    · rw [if_neg h, if_neg (by omega)]
  simp only [calculate_final_score, specFinalScore, min_text_length]
  rw [h40, e1, e2, e3]
  congr 1
  ring

theorem decide_joinSpace_strip (P : List (List Char)) (hall : ∀ p ∈ P, pyStrip p ≠ []) :
    decide (joinSpace P ≠ []) = decide (pyStrip (joinSpace P) ≠ []) := by
  cases hP : P with
  | nil => rfl
  | cons p ps =>
    obtain ⟨h1, h2⟩ := pyStrip_joinSpace_ne_nil (p :: ps) (by simp) (hP ▸ hall)
    simp [h1, h2]

/-! ## Claim theorems -/

/-- C1 (counterexample): with the default Portuguese pattern table,
`validate_text` on the non-empty text "abc" does not return any result at
all — the invalid range `ç-Ç` of the `words` pattern makes
`_analyze_patterns` raise `re.error` — so the claim that every non-empty,
non-whitespace text yields a final score does not hold as stated. -/
theorem validate_text_pt_words_pattern_raises :
    validate_text .pt "abc".toList 50 = .error ptWordsRangeError := by
  rfl

/-- C1 (amended): for a validator whose language is not `'pt'` (hence
using the English pattern table), `validate_text` on any non-empty,
non-whitespace text and any `ocr_confidence` returns a result whose
`final_score` is exactly the specification's weighted sum capped at 100
(`specFinalScore`). -/
theorem validate_text_final_score_weighted_sum (text : List Char) (conf : ℚ)
    (h : pyStrip text ≠ []) :
    ∃ r, validate_text .en text conf = .ok r ∧
      r.final_score = specFinalScore conf (analyze_basic_properties (pyStrip text))
        (analyzePatternsEn (pyStrip text)) (analyze_quality (pyStrip text)) := by
  unfold validate_text
  rw [if_neg h]
  exact ⟨_, rfl, calculate_final_score_eq_spec conf _ _ _⟩

/-- C1 (witness): the amended theorem applied at text "abc", confidence 50. -/
theorem validate_text_final_score_weighted_sum_witness :
    pyStrip "abc".toList ≠ [] ∧
    ∃ r, validate_text .en "abc".toList 50 = .ok r ∧
      r.final_score = specFinalScore 50 (analyze_basic_properties (pyStrip "abc".toList))
        (analyzePatternsEn (pyStrip "abc".toList)) (analyze_quality (pyStrip "abc".toList)) :=
  ⟨by decide, validate_text_final_score_weighted_sum "abc".toList 50 (by decide)⟩

/-- C2: the manager's `extract_text` is a total function (it returns a
`RecognitionResult` for every environment, image, language and requested
name, so it never raises); when the requested engine is unavailable it
dispatches to the baseline Tesseract engine; and when no engine at all is
available — so that the pytesseract call itself raises, with the
library's non-empty `TesseractNotFoundError` message — the result has
`success = false` and a non-empty error string. -/
theorem manager_extract_text_fallback_no_raise {Img : Type} (env : OCREnv Img)
    (image : Img) (lang : String) (name : String) (oname : Option String) :
    ((∀ e, lookup_engine name = some e → engine_available env e = false) →
      manager_extract_text env image lang (some name) =
        tesseract_extract_text env image lang) ∧
    (env.tess_available = false → env.easy_available = false →
      env.google_available = false →
      (∀ m, env.tess_call image lang = Except.error m → m ≠ "") →
      (∃ m, env.tess_call image lang = Except.error m) →
      (manager_extract_text env image lang oname).success = false ∧
        ∃ msg, (manager_extract_text env image lang oname).error = some msg ∧ msg ≠ "") := by
  constructor
  · intro hun
    have hg : get_engine env (some name) = .tesseract := by
      unfold get_engine
      simp only [Option.getD_some]
      cases hl : lookup_engine name with
      | none => rfl
      | some e => simp [hun e hl]
    show engine_extract_text (get_engine env (some name)) env image lang = _
    rw [hg]
    rfl
  · intro h1 h2 h3 h4 hex
    obtain ⟨m, hm⟩ := hex
    have hg : get_engine env oname = .tesseract := by
      unfold get_engine
      cases hl : lookup_engine (oname.getD "tesseract") with
      | none => rfl
      | some e => cases e <;> simp [engine_available, h1, h2, h3]
    have hmt : manager_extract_text env image lang oname =
        tesseract_extract_text env image lang := by
      show engine_extract_text (get_engine env oname) env image lang = _
      rw [hg]
      rfl
    rw [hmt]
    unfold tesseract_extract_text
    rw [hm]
    exact ⟨rfl, m, rfl, h4 m hm⟩

/-- C2 (witness): the fallback equation for an environment where only
Tesseract is available and `easyocr` is requested, and the failure shape
for an environment with no engine at all. -/
theorem manager_extract_text_fallback_no_raise_witness :
    (manager_extract_text envTessOnly () "eng" (some "easyocr") =
      tesseract_extract_text envTessOnly () "eng") ∧
    ((manager_extract_text envNoEngines () "eng" (some "easyocr")).success = false ∧
      ∃ msg, (manager_extract_text envNoEngines () "eng" (some "easyocr")).error =
        some msg ∧ msg ≠ "") := by
  constructor
  · exact (manager_extract_text_fallback_no_raise envTessOnly () "eng" "easyocr"
      (some "easyocr")).1
      (fun e he => by
        rw [show lookup_engine "easyocr" = some EngineId.easyocr from rfl] at he
        injection he with he'
        rw [← he']
        rfl)
  · exact (manager_extract_text_fallback_no_raise envNoEngines () "eng" "easyocr"
      (some "easyocr")).2
      rfl rfl rfl
      (fun m hm => by
        rw [show envNoEngines.tess_call () "eng" =
          Except.error "tesseract is not installed or it's not in your PATH" from rfl] at hm
        injection hm with hm'
        rw [← hm']
        decide)
      ⟨_, rfl⟩

/-- C3: on a successful detection the Google Cloud engine returns the
fixed per-block heuristic `0.95` verbatim as `avg_confidence` — a value
below 1, i.e. not rescaled to the common 0–100 percent unit that the
other engines (and the scoring code consuming `avg_confidence`) use. -/
theorem google_cloud_confidence_not_rescaled :
    (google_extract_text envGoogleOk () "eng").success = true ∧
    (google_extract_text envGoogleOk () "eng").avg_confidence = 19/20 ∧
    (google_extract_text envGoogleOk () "eng").avg_confidence < 1 := by
  refine ⟨rfl, rfl, ?_⟩
  rw [show (google_extract_text envGoogleOk () "eng").avg_confidence = 19/20 from rfl]
  norm_num

/-- C4: `preprocess` is a total function on its embedding (the caller can
never see an exception); a step whose cv2/PIL call raises is skipped,
the pipeline continuing on the pre-step image; and when the surrounding
conversions raise — the whole-pipeline failure caught by the outer
handler — the original, unmodified input image is returned. -/
theorem preprocess_fail_open {Img Arr : Type} (convIn : Img → Option Arr)
    (stepApply : Step → Arr → Option Arr) (convOut : Arr → Option Img)
    (steps rest : List Step) (s : Step) (cur : Arr) (image image2 : Img) (a : Arr)
    (hstep : stepApply s cur = none)
    (hin : convIn image = none)
    (hin2 : convIn image2 = some a)
    (hout : convOut (applySteps stepApply steps a) = none) :
    applySteps stepApply (s :: rest) cur = applySteps stepApply rest cur ∧
    preprocess convIn stepApply convOut steps image = image ∧
    preprocess convIn stepApply convOut steps image2 = image2 := by
  refine ⟨?_, ?_, ?_⟩
  · simp [applySteps, hstep]
  · simp [preprocess, hin]
  · simp [preprocess, hin2, hout]

/-- C4 (witness): the three conclusions at a concrete pipeline whose
steps and conversions all fail. -/
theorem preprocess_fail_open_witness :
    applySteps wStepApply (Step.grayscale :: [Step.sharpen]) 7 =
      applySteps wStepApply [Step.sharpen] 7 ∧
    preprocess wConvIn wStepApply wConvOut [Step.grayscale] false = false ∧
    preprocess wConvIn wStepApply wConvOut [Step.grayscale] true = true :=
  preprocess_fail_open wConvIn wStepApply wConvOut [Step.grayscale] [Step.sharpen]
    Step.grayscale 7 false true 0 rfl rfl rfl rfl

/-- C5: the four named presets build exactly the specified step
sequences with the specified parameters (1.5 = 3/2, 1.8 = 9/5,
1.3 = 13/10; the bare `otsu` thresholds carry the Python defaults
`block_size=11`, `c=2`). -/
theorem presets_golden_sequences :
    get_preset_text_enhancement =
      [.grayscale, .blur 3, .contrast (3/2), .sharpen, .threshold "adaptive" 11 2] ∧
    get_preset_low_quality =
      [.grayscale, .denoise, .contrast 2, .resize 2, .threshold "otsu" 11 2] ∧
    get_preset_handwriting =
      [.grayscale, .blur 5, .contrast (9/5), .sharpen, .threshold "adaptive" 15 3] ∧
    get_preset_document_scan =
      [.grayscale, .denoise, .contrast (13/10), .threshold "otsu" 11 2] :=
  ⟨rfl, rfl, rfl, rfl⟩

/-- C6 (counterexample): the spec's expected boundary values are wrong on
the code: `get_threshold_level(59.9)` is not `'low'` (it is `'medium'`). -/
theorem get_threshold_level_spec_examples_false :
    ¬(get_threshold_level (599/10) = "low" ∧ get_threshold_level 60 = "medium") := by
  have t1 : thresholds "very_low" = 20 := rfl
  have t2 : thresholds "low" = 40 := rfl
  have t3 : thresholds "medium" = 60 := rfl
  have t4 : thresholds "high" = 80 := rfl
  norm_num [get_threshold_level, t1, t2, t3, t4]
  decide

/-- C6 (amended): `get_threshold_level(59.9) = 'medium'` and
`get_threshold_level(60.0) = 'high'`: the strict upper bounds
20/40/60/80/95 each close the band *named by the threshold key below*
(`< 20 → very_low`, `< 40 → low`, `< 60 → medium`, `< 80 → high`,
else `very_high`), still exclusive on the lower band. -/
theorem get_threshold_level_boundary_values :
    get_threshold_level (599/10) = "medium" ∧ get_threshold_level 60 = "high" := by
  have t1 : thresholds "very_low" = 20 := rfl
  have t2 : thresholds "low" = 40 := rfl
  have t3 : thresholds "medium" = 60 := rfl
  have t4 : thresholds "high" = 80 := rfl
  norm_num [get_threshold_level, t1, t2, t3, t4]

/-- C7 (counterexample): `get_preprocessing_suggestion(65.0)` is not
`'document_scan'` — 65 is above the `medium` cutoff 60, so the code
returns `'none'`. -/
theorem get_preprocessing_suggestion_spec_examples_false :
    ¬(get_preprocessing_suggestion 15 = "low_quality" ∧
      get_preprocessing_suggestion 65 = "document_scan" ∧
      get_preprocessing_suggestion 96 = "none") := by
  have t1 : thresholds "very_low" = 20 := rfl
  have t2 : thresholds "low" = 40 := rfl
  have t3 : thresholds "medium" = 60 := rfl
  norm_num [get_preprocessing_suggestion, t1, t2, t3]
  decide

/-- C7 (amended): `get_preprocessing_suggestion` returns `'low_quality'`
at 15.0 and `'none'` at both 65.0 and 96.0 (`document_scan` is only
suggested for scores in `[40, 60)`). -/
theorem get_preprocessing_suggestion_values :
    get_preprocessing_suggestion 15 = "low_quality" ∧
    get_preprocessing_suggestion 65 = "none" ∧
    get_preprocessing_suggestion 96 = "none" := by
  have t1 : thresholds "very_low" = 20 := rfl
  have t2 : thresholds "low" = 40 := rfl
  have t3 : thresholds "medium" = 60 := rfl
  norm_num [get_preprocessing_suggestion, t1, t2, t3]

theorem garbage_basic_eval : analyze_basic_properties garbageText =
    { char_count := 16
      word_count := 1
      letter_count := 8
      number_count := 0
      space_count := 0
      punctuation_count := 8
      letter_ratio := 1/2
      number_ratio := 0
      space_ratio := 0
      punctuation_ratio := 1/2
      avg_word_length := 16
      longest_word := garbageText
      shortest_word := garbageText } := by
  have e1 : pySplit garbageText = [garbageText] := by decide
  have e2 : garbageText.countP pyIsAlpha = 8 := by decide
  have e3 : garbageText.countP pyIsDigit = 0 := by decide
  have e4 : garbageText.countP pyIsSpace = 0 := by decide
  have e5 : garbageText.countP (fun c => !(pyIsAlpha c || pyIsDigit c) && !pyIsSpace c) = 8 := by
    decide
  have e6 : garbageText.length = 16 := by decide
  simp only [analyze_basic_properties, e1, e2, e3, e4, e5, e6]
  norm_num [maxByLen, minByLen, BasicAnalysis.mk.injEq, e6]

theorem garbage_pattern_eval : analyzePatternsEn garbageText =
    { words := ⟨1, [List.replicate 8 'a']⟩
      numbers := ⟨0, []⟩
      email := ⟨0, []⟩
      url := ⟨0, []⟩
      common_words_count := 0
      common_words_ratio := 0 } := by
  have f1 : findallWordsEn garbageText = [List.replicate 8 'a'] := by decide
  have f2 : findallNumbers garbageText = [] := by decide
  have f3 : findallEmail garbageText = [] := by decide
  have f4 : findallUrl garbageText = [] := by decide
  have f5 : findallWordsEn (pyLower garbageText) = [List.replicate 8 'a'] := by decide
  have f6 : ([List.replicate 8 'a'] : List (List Char)).countP
      (fun w => commonWordsEn.contains w) = 0 := by decide
  simp only [analyzePatternsEn, f1, f2, f3, f4, f5, f6]
  norm_num [PatternAnalysis.mk.injEq]

theorem garbage_quality_eval : analyze_quality garbageText =
    { suspicious_count := 0
      suspicious_chars := []
      repeated_count := 3
      repeated_patterns := ['a', '!', '#']
      mixed_case_count := 0
      mixed_case_words := []
      irregular_spacing := false
      readability_score := 0 } := by
  have g1 : garbageText.filter (fun c => !allowedQualityChar c) = [] := by decide
  have g2 : (charRuns garbageText).filter (fun r => 4 ≤ r.2 && r.1 ≠ '\n') =
      [('a', 8), ('!', 4), ('#', 4)] := by decide
  have g3 : (pySplit garbageText).filter (fun w =>
      3 < w.length && w.any (fun c => 'a' ≤ c && c ≤ 'z') &&
        w.any (fun c => 'A' ≤ c && c ≤ 'Z')) = [] := by decide
  have g4 : (charRuns garbageText).filter (fun r => r.1 = ' ' && 2 ≤ r.2) = [] := by decide
  have g5 : calculate_readability garbageText = 0 := by
    have e1 : pySplit garbageText = [garbageText] := by decide
    have e6 : garbageText.length = 16 := by decide
    have s1 : reSplit (fun c => c = '.' || c = '!' || c = '?') garbageText =
        [List.replicate 8 'a', List.replicate 4 '#'] := by decide
    simp only [calculate_readability, e1, s1, e6]
    norm_num [e6]
  simp only [analyze_quality, g1, g2, g3, g4, g5]
  norm_num [QualityAnalysis.mk.injEq]

theorem garbage_validate_text_eval : validate_text .en garbageText 10 = .ok
    { text := garbageText
      is_valid := true
      final_score := 44
      ocr_confidence := 10
      basic_analysis := some
        { char_count := 16
          word_count := 1
          letter_count := 8
          number_count := 0
          space_count := 0
          punctuation_count := 8
          letter_ratio := 1/2
          number_ratio := 0
          space_ratio := 0
          punctuation_ratio := 1/2
          avg_word_length := 16
          longest_word := garbageText
          shortest_word := garbageText }
      pattern_analysis := some
        { words := ⟨1, [List.replicate 8 'a']⟩
          numbers := ⟨0, []⟩
          email := ⟨0, []⟩
          url := ⟨0, []⟩
          common_words_count := 0
          common_words_ratio := 0 }
      quality_analysis := some
        { suspicious_count := 0
          suspicious_chars := []
          repeated_count := 3
          repeated_patterns := ['a', '!', '#']
          mixed_case_count := 0
          mixed_case_words := []
          irregular_spacing := false
          readability_score := 0 }
      recommendations :=
        ["Qualidade baixa. Tente pré-processamento da imagem.",
         "Possíveis erros de OCR em caracteres repetidos."] } := by
  have hne : ¬ pyStrip garbageText = [] := by decide
  have hstrip : pyStrip garbageText = garbageText := by decide
  have hscore : calculate_final_score 10 (analyze_basic_properties garbageText)
      (analyzePatternsEn garbageText) (analyze_quality garbageText) = 44 := by
    rw [garbage_basic_eval, garbage_pattern_eval, garbage_quality_eval]
    norm_num [calculate_final_score, min_text_length]
  have hvalid : is_text_valid 44 (analyze_basic_properties garbageText) = true := by
    rw [garbage_basic_eval]
    norm_num [is_text_valid, min_confidence_threshold, min_text_length]
  have hrec : get_recommendations 44 (analyze_basic_properties garbageText)
      (analyze_quality garbageText) =
      ["Qualidade baixa. Tente pré-processamento da imagem.",
       "Possíveis erros de OCR em caracteres repetidos."] := by
    rw [garbage_basic_eval, garbage_quality_eval]
    norm_num [get_recommendations]
  unfold validate_text
  rw [if_neg hne]
  simp only [hstrip, analyze_patterns]
  rw [hscore, hvalid, hrec, garbage_basic_eval, garbage_pattern_eval, garbage_quality_eval]

/-- C8 (counterexample): `validate_text("aaaaaaaa!!!!####", 10.0)` (with
the working, non-`'pt'` pattern table) returns `is_valid = true`, not
`false` as claimed: the input scores 44.0 ≥ 30. -/
theorem validate_text_garbage_is_valid_true :
    (validate_text .en garbageText 10).toOption.map (fun r => r.is_valid) = some true := by
  rw [garbage_validate_text_eval]
  rfl

/-- C8 (amended): `validate_text("aaaaaaaa!!!!####", 10.0)` returns
`is_valid = true` with `final_score = 44.0`, and its recommendations are
exactly a low-quality message and a repeated-characters message — no
suspicious-character message, because `!` and `#` belong to the allowed
character class of the suspicious-chars regex.  (With the default `'pt'`
table the call raises instead, see C1.) -/
theorem validate_text_garbage_result :
    (validate_text .en garbageText 10).toOption.map
      (fun r => (r.is_valid, r.final_score, r.recommendations)) =
    some (true, 44,
      ["Qualidade baixa. Tente pré-processamento da imagem.",
       "Possíveis erros de OCR em caracteres repetidos."]) := by
  rw [garbage_validate_text_eval]
  rfl

/-- C9: every `RecognitionResult` produced by any engine's
`extract_text`, over every environment, image, language and error path,
satisfies the invariant: `success = false` implies `text = ""` and
`avg_confidence = 0`, and `has_text` holds exactly when the text stripped
of whitespace is non-empty. -/
theorem recognition_result_invariant {Img : Type} (env : OCREnv Img) (image : Img)
    (lang : String) (e : EngineId) :
    ((engine_extract_text e env image lang).success = false →
      (engine_extract_text e env image lang).text = [] ∧
      (engine_extract_text e env image lang).avg_confidence = 0) ∧
    (engine_extract_text e env image lang).has_text =
      decide (pyStrip (engine_extract_text e env image lang).text ≠ []) := by
  cases e with
  | tesseract =>
    unfold engine_extract_text tesseract_extract_text
    cases hc : env.tess_call image lang with
    | error msg => exact ⟨fun _ => ⟨rfl, rfl⟩, rfl⟩
    | ok d =>
      refine ⟨fun hfalse => by simp at hfalse, ?_⟩
      show decide (pyStrip d.full_text ≠ []) = decide (pyStrip (pyStrip d.full_text) ≠ [])
      rw [pyStrip_idem]
  | easyocr =>
    unfold engine_extract_text easyocr_extract_text
    cases ha : env.easy_available with
    | false => exact ⟨fun _ => ⟨rfl, rfl⟩, rfl⟩
    | true =>
      simp only [Bool.not_true, Bool.false_eq_true, if_false]
      cases hr : env.easy_readtext image (lang_map lang) with
      | error msg => exact ⟨fun _ => ⟨rfl, rfl⟩, rfl⟩
      | ok results =>
        refine ⟨fun hfalse => by simp at hfalse, ?_⟩
        show decide (joinSpace ((results.filter fun r => pyStrip r.1 ≠ []).map Prod.fst) ≠ []) =
          decide (pyStrip (joinSpace ((results.filter fun r => pyStrip r.1 ≠ []).map Prod.fst)) ≠ [])
        refine decide_joinSpace_strip _ ?_
        intro p hp
        obtain ⟨r, hrmem, rfl⟩ := List.mem_map.mp hp
        have hflt := (List.mem_filter.mp hrmem).2
        exact of_decide_eq_true hflt
  | google_cloud =>
    unfold engine_extract_text google_extract_text
    cases hg : env.google_available with
    | false => exact ⟨fun _ => ⟨rfl, rfl⟩, rfl⟩
    | true =>
      simp only [Bool.not_true, Bool.false_eq_true, if_false]
      cases hr : env.google_text_detection image (lang_map lang) with
      | error msg => exact ⟨fun _ => ⟨rfl, rfl⟩, rfl⟩
      | ok texts =>
        cases texts with
        | nil => exact ⟨fun hfalse => by simp [google_empty_result] at hfalse, rfl⟩
        | cons full_text rest =>
          refine ⟨fun hfalse => by simp at hfalse, ?_⟩
          show decide (pyStrip full_text ≠ []) =
            decide (pyStrip (pyStrip full_text) ≠ [])
          rw [pyStrip_idem]

/-- C9 (witness): the invariant components instantiated at a concrete
failing Tesseract extraction. -/
theorem recognition_result_invariant_witness :
    ((engine_extract_text .tesseract envNoEngines () "eng").text = [] ∧
      (engine_extract_text .tesseract envNoEngines () "eng").avg_confidence = 0) ∧
    (engine_extract_text .tesseract envNoEngines () "eng").has_text =
      decide (pyStrip (engine_extract_text .tesseract envNoEngines () "eng").text ≠ []) :=
  ⟨(recognition_result_invariant envNoEngines () "eng" .tesseract).1 rfl,
   (recognition_result_invariant envNoEngines () "eng" .tesseract).2⟩

/-- C10: for any language, any input confidence and any empty or
whitespace-only text, `validate_text` returns the one fixed
`_empty_result` constant — text `''`, invalid, score 0, empty analyses,
the single fixed recommendation — whose `ocr_confidence` field is 0
regardless of the passed confidence. -/
theorem validate_text_empty_input_constant (lang : Language) (text : List Char) (conf : ℚ)
    (h : pyStrip text = []) :
    validate_text lang text conf = .ok empty_result ∧
    empty_result =
      { text := []
        is_valid := false
        final_score := 0
        ocr_confidence := 0
        basic_analysis := none
        pattern_analysis := none
        quality_analysis := none
        recommendations := ["Nenhum texto detectado"] } := by
  refine ⟨?_, rfl⟩
  unfold validate_text
  rw [if_pos h]

/-- C10 (witness): the constant result at whitespace-only text and
confidence 37. -/
theorem validate_text_empty_input_constant_witness :
    validate_text .pt "  ".toList 37 = .ok empty_result ∧
    empty_result =
      { text := []
        is_valid := false
        final_score := 0
        ocr_confidence := 0
        basic_analysis := none
        pattern_analysis := none
        quality_analysis := none
        recommendations := ["Nenhum texto detectado"] } :=
  validate_text_empty_input_constant .pt "  ".toList 37 (by decide)

end GrabText
